import Mathlib

/-!
# Verification of the Enma reminder pipeline

Shallow embedding of the reminder scheduling and delivery pipeline of the
Enma repository:

* the client scheduler loop, `toggleReminder` and `notifyTelegramReminder`
  from `src/App.tsx`;
* the inbound webhook handler and `parseTransaction` from
  `api/telegram/webhook.js`;
* the cron claim-and-deliver job from `api/telegram/cron.js`, including a
  small interleaving semantics for two concurrent invocations racing on one
  shared reminder record.

JavaScript-specific behaviour (truthiness of empty strings, `??` vs `||`,
`Number(x) || 0`) is modelled explicitly where the code relies on it.
-/

/-! ## JavaScript helpers -/

/-- Numeric value of a decimal digit string (`"150"` to `150`). -/
def natOfDigits (cs : List Char) : Nat :=
  cs.foldl (fun a c => a * 10 + (c.toNat - '0'.toNat)) 0

/-- `trim`: strip leading and trailing whitespace. -/
def listTrim (cs : List Char) : List Char :=
  ((cs.dropWhile Char.isWhitespace).reverse.dropWhile Char.isWhitespace).reverse

/-- `s.split(sep)` for a single-character separator (`"".split(':')` is
`[""]`, as in JavaScript). -/
def splitOnChar (sep : Char) : List Char → List (List Char)
  | [] => [[]]
  | c :: rest =>
    let r := splitOnChar sep rest
    if c = sep then [] :: r
    else
      match r with
      | h :: t => (c :: h) :: t
      | [] => [[c]]

/-- Models `Number(s) || 0` as applied to `HH:MM` components in the scheduler:
JavaScript's `Number` trims whitespace and parses an optionally signed decimal
integer string; any other input (including `undefined` for a missing
component) is `NaN`, which `|| 0` collapses to `0`. -/
def jsNumberOr0 : Option (List Char) → Int
  | none => 0
  | some s =>
    let t := listTrim s
    if t ≠ [] ∧ t.all Char.isDigit then (natOfDigits t : Int)
    else
      match t with
      | '-' :: ds => if ds ≠ [] ∧ ds.all Char.isDigit then -(natOfDigits ds : Int) else 0
      | _ => 0

/-- Models `a ?? b` for an optional string `a`: only `null`/`undefined`
fall through to the default, an empty string does not. -/
def jsCoalesce (o : Option String) (d : String) : String := o.getD d

/-- Models `a || b` for an optional string `a`: `null`, `undefined` and the
empty string are all falsy and fall through to the default. -/
def jsOrStr (o : Option String) (d : String) : String :=
  match o with
  | none => d
  | some s => if s = "" then d else s

/-! ## Client scheduler (src/App.tsx)

A JavaScript `Date` is modelled by its calendar-day index and
hour/minute/second components; comparison between dates goes through the
linearisation `toTicks`, which also reproduces `setHours` rollover
(`setHours(d, 25)` and day+1/hour 1 denote the same instant). -/

structure DateT where
  day : Int
  hour : Int
  minute : Int
  second : Int
deriving DecidableEq, Repr

/-- The instant denoted by a `DateT`, in seconds (a JS `Date` compares by
its absolute timestamp). -/
def toTicks (d : DateT) : Int :=
  ((d.day * 24 + d.hour) * 60 + d.minute) * 60 + d.second

/-- `setHours(d, h)` of date-fns: replace the hour component. -/
def setHoursD (d : DateT) (h : Int) : DateT := { d with hour := h }

/-- `setMinutes(d, m)` of date-fns: replace the minute component. -/
def setMinutesD (d : DateT) (m : Int) : DateT := { d with minute := m }

/-- Client-local reminder (`Reminder` in `src/App.tsx`); `date` is kept in
parsed form (the result of `parseISO(reminder.date)`). -/
structure Reminder where
  id : String
  title : String
  date : DateT
  time : String
  notes : Option String
  done : Bool
  notified : Bool
deriving DecidableEq, Repr

/-- The scheduled instant of a reminder, as computed in the scheduler
effect: `setMinutes(setHours(parseISO(date), Number(h) || 0), Number(m) || 0)`
where `[h, m] = reminder.time.split(':')`. -/
def schedInstant (r : Reminder) : DateT :=
  let parts := splitOnChar ':' r.time.toList
  setMinutesD (setHoursD r.date (jsNumberOr0 (parts.get? 0))) (jsNumberOr0 (parts.get? 1))

/-- An outbound `sendMessage` call issued by the scheduler
(`notifyTelegramReminder(chatId, reminder, language)`). -/
structure SendAttempt where
  chatId : Int
  reminderId : String
deriving DecidableEq, Repr

/-- The warnings logged by `notifyTelegramReminder` for a given network
outcome: the `fetch` is wrapped in `try/catch`, so a network failure is
logged with `console.warn` and never propagates to the caller. -/
def notifyWarnLog (netOk : Bool) : List String :=
  if netOk then [] else ["Failed to send Telegram reminder"]

/-- One reminder's treatment in the scheduler tick: skipped when `done` or
`notified`; otherwise, when its scheduled instant is at or before `now`, the
notification is dispatched (fire-and-forget) and `notified` is set. Returns
(updated reminder, whether it changed, sends issued). -/
def tickStep (chatId : Int) (now : DateT) (r : Reminder) :
    Reminder × Bool × List SendAttempt :=
  if r.done || r.notified then (r, false, [])
  else if toTicks (schedInstant r) ≤ toTicks now then
    ({ r with notified := true }, true, [⟨chatId, r.id⟩])
  else (r, false, [])

/-- One pass of the `setInterval` scheduler body: map `tickStep` over the
reminders, return the updated array when anything changed (`changed ?
updated : prev`) together with the sends issued. -/
def tick (chatId : Int) (now : DateT) (prev : List Reminder) :
    List Reminder × List SendAttempt :=
  let mapped := prev.map (tickStep chatId now)
  let updated := mapped.map (·.1)
  let changed := mapped.any (·.2.1)
  let sends := (mapped.map (·.2.2)).flatten
  (if changed then updated else prev, sends)

/-- A reminder is due: not done, not notified, scheduled at or before now. -/
def dueB (now : DateT) (r : Reminder) : Bool :=
  !r.done && !r.notified && decide (toTicks (schedInstant r) ≤ toTicks now)

/-- `toggleReminder(id)` from `src/App.tsx`: flip `done`, and reset
`notified` exactly when the reminder was previously done. -/
def toggleReminder (id : String) (prev : List Reminder) : List Reminder :=
  prev.map fun r =>
    if r.id = id then
      { r with done := !r.done, notified := if r.done then false else r.notified }
    else r

/-! ## Inbound webhook (api/telegram/webhook.js) -/

inductive TxType | income | expense
deriving DecidableEq, Repr

/-- An exact decimal number `mant / 10 ^ scale`, the value `parseFloat`
returns on the parser's numeric tokens (digits, optionally a decimal point
and more digits — all exactly representable; trailing fractional zeros are
stripped so that equal values have equal representations). -/
structure DecNumber where
  mant : Nat
  scale : Nat
deriving DecidableEq, Repr

instance (n : Nat) : OfNat DecNumber n := ⟨⟨n, 0⟩⟩

/-- Result of `parseTransaction`. -/
structure ParsedTx where
  amount : DecNumber
  description : String
  type : TxType
deriving DecidableEq, Repr

/-- The match of `/(\d+(?:[.,]\d+)?)/` anchored at the current position
(which must start with a digit): a maximal digit run, then optionally a `.`
or `,` separator followed by a further nonempty maximal digit run. -/
def matchNumberAt (cs : List Char) : List Char :=
  let (ds, rest) := cs.span Char.isDigit
  match rest with
  | sep :: rest2 =>
    if sep = '.' ∨ sep = ',' then
      match rest2.span Char.isDigit with
      | ([], _) => ds
      | (fs, _) => ds ++ sep :: fs
    else ds
  | [] => ds

/-- First match of `/(\d+(?:[.,]\d+)?)/` in the text: the match starts at
the leftmost digit. -/
def firstNumber : List Char → Option (List Char)
  | [] => none
  | c :: cs => if c.isDigit then some (matchNumberAt (c :: cs)) else firstNumber cs

/-- `s.replace(',', '.')` — JavaScript `replace` with a string pattern
rewrites only the first occurrence. -/
def replaceFirstComma : List Char → List Char
  | [] => []
  | c :: cs => if c = ',' then '.' :: cs else c :: replaceFirstComma cs

/-- `parseFloat` on the matched numeric token (digits, optionally a dot and
more digits): `"150"` to `150`, `"1.5"` to `15/10`. -/
def parseFloatDec (cs : List Char) : DecNumber :=
  let (ds, rest) := cs.span Char.isDigit
  match rest with
  | '.' :: fs =>
    let frac := ((fs.takeWhile Char.isDigit).reverse.dropWhile (· = '0')).reverse
    ⟨natOfDigits ds * 10 ^ frac.length + natOfDigits frac, frac.length⟩
  | _ => ⟨natOfDigits ds, 0⟩

/-- `clean.replace(numStr, '')`: remove the first occurrence of `pat`. -/
def stripFirst (pat : List Char) : List Char → List Char
  | [] => []
  | c :: cs => if pat.isPrefixOf (c :: cs) then (c :: cs).drop pat.length
               else c :: stripFirst pat cs

/-- `toLowerCase` for the alphabets the parser's keywords use: ASCII and
the Cyrillic А–Я / Ё ranges. -/
def jsToLower (c : Char) : Char :=
  if 'A' ≤ c ∧ c ≤ 'Z' then Char.ofNat (c.toNat + 32)
  else if 'А' ≤ c ∧ c ≤ 'Я' then Char.ofNat (c.toNat + 32)
  else if c = 'Ё' then 'ё'
  else c

/-- `s.includes(pat)`: substring test. -/
def containsSub (pat : List Char) : List Char → Bool
  | [] => pat.isEmpty
  | c :: cs => pat.isPrefixOf (c :: cs) || containsSub pat cs

/-- `parseTransaction` from `api/telegram/webhook.js`: first numeric token
is the amount (`,` read as decimal point), the description is the text with
that token removed and trimmed (falling back to `'No description'`), and
the type is `income` when the trimmed text starts with `+` or its lowercase
form contains `доход` or `income`, else `expense`. -/
def parseTransaction (text : String) : Option ParsedTx :=
  let clean := listTrim text.toList
  match firstNumber clean with
  | none => none
  | some numStr =>
    let amount := parseFloatDec (replaceFirstComma numStr)
    let rawDesc := listTrim (stripFirst numStr clean)
    let description := if rawDesc = [] then "No description" else String.mk rawDesc
    let lower := clean.map jsToLower
    let ty :=
      if ['+'].isPrefixOf clean || containsSub "доход".toList lower
          || containsSub "income".toList lower then
        TxType.income
      else TxType.expense
    some ⟨amount, description, ty⟩

example : parseTransaction "150 coffee" = some ⟨150, "coffee", TxType.expense⟩ := by decide
example : parseTransaction "+500 gift" = some ⟨500, "+ gift", TxType.income⟩ := by decide
example : parseTransaction "зарплата 1000" = some ⟨1000, "зарплата", TxType.expense⟩ := by decide
example : parseTransaction "hello" = none := by decide

/-! ### Webhook HTTP handler

The handler is embedded as a pure function over the request and an
environment of outcomes for its asynchronous calls (`Except.error`
models a rejected promise, caught by the handler's `try/catch`). Every
store/network interaction is recorded in an effect trace. -/

structure WChat where
  id : Int
deriving DecidableEq, Repr

structure WMsg where
  chat : Option WChat
  text : Option String
deriving DecidableEq, Repr

structure WBody where
  message : Option WMsg
deriving DecidableEq, Repr

inductive WEffect
  | userLookup (chatId : Int)
  | persistTx (amount : DecNumber) (description : String) (type : TxType)
  | send (chatId : Int) (text : String)
deriving DecidableEq, Repr

structure WResp where
  status : Nat
  ok : Bool
deriving DecidableEq, Repr

/-- Outcomes of the handler's awaited calls: the user lookup (throws, or
yields the id of the bound user when the `users` query is non-empty), the
transaction write, and the outbound sends. -/
structure WebhookEnv where
  userLookup : Except String (Option String)
  persist : Except String Unit
  sendMsg : Except String Unit

/-- Text checks of the handler, JavaScript truthiness included:
`!message.text` is true for a missing or empty text. -/
def falsyText : Option String → Bool
  | none => true
  | some s => s = ""

def onboardingText : String :=
  "⚠️ Привет! Пожалуйста, сначала открой Мини-Апп (Enma), чтобы мы могли привязать твой аккаунт."

def startHelpText : String :=
  "Привет! Я Enma. Ты можешь записывать расходы прямо здесь.\nПример: \x22150 кофе\x22 или \x22+200 кешбэк\x22"

/-- Decimal rendering of the parsed amount, as JavaScript string
interpolation renders the number. -/
def DecNumber.render (d : DecNumber) : String :=
  if d.scale = 0 then toString d.mant
  else
    let p := 10 ^ d.scale
    let padded := toString (p + d.mant % p)
    toString (d.mant / p) ++ "." ++ String.mk (padded.toList.drop 1)

def confirmText (p : ParsedTx) : String :=
  "✅ Записано: " ++ (if p.type = TxType.income then "Доход" else "Расход")
    ++ " " ++ p.amount.render ++ " — " ++ p.description

/-- The webhook handler of `api/telegram/webhook.js`. Non-`POST` requests
get 405; a body without a truthy `message`, `message.text` and
`message.chat` gets an immediate `200 {ok:true}` with no effects; otherwise
the `try` block runs: a throw from any awaited call lands in the `catch`,
which also answers `200 {ok:true}`. -/
def webhookHandler (env : WebhookEnv) (method : String) (body : WBody) :
    WResp × List WEffect :=
  if method ≠ "POST" then (⟨405, false⟩, [])
  else
    match body.message with
    | none => (⟨200, true⟩, [])
    | some msg =>
      match msg.chat, falsyText msg.text with
      | none, _ => (⟨200, true⟩, [])
      | some _, true => (⟨200, true⟩, [])
      | some chat, false =>
        let chatId := chat.id
        let text := msg.text.getD ""
        match env.userLookup with
        | .error _ => (⟨200, true⟩, [.userLookup chatId])
        | .ok none =>
          -- unknown chat: onboarding reply; a rejected send is caught,
          -- with the same 200 response
          (⟨200, true⟩, [.userLookup chatId, .send chatId onboardingText])
        | .ok (some _) =>
          match parseTransaction text with
          | none =>
            if ("/start".toList).isPrefixOf text.toList then
              (⟨200, true⟩, [.userLookup chatId, .send chatId startHelpText])
            else (⟨200, true⟩, [.userLookup chatId])
          | some parsed =>
            match env.persist with
            | .error _ =>
              (⟨200, true⟩,
               [.userLookup chatId, .persistTx parsed.amount parsed.description parsed.type])
            | .ok _ =>
              (⟨200, true⟩,
               [.userLookup chatId, .persistTx parsed.amount parsed.description parsed.type,
                .send chatId (confirmText parsed)])

/-! ## Cron claim-and-deliver job (api/telegram/cron.js) -/

inductive Status | pending | sending | sent
deriving DecidableEq, Repr

/-- Shared-backend reminder document (`reminders` collection). Timestamps
are integers; `serverTimestamp()` writes are modelled by a `ts` parameter
of the run. -/
structure SharedReminder where
  chatId : Int
  scheduledAt : Int
  status : Status
  title : String
  time : Option String
  telegramText : Option String
  lastError : Option String
  notifiedAt : Option Int
  updatedAt : Option Int
deriving DecidableEq, Repr

/-- Result of `sendTelegramMessage` in `cron.js`: `ok` is
`response.ok && payload.ok !== false`, and `description` is
`payload.description` (absent when the body was not JSON). -/
structure SendResult where
  ok : Bool
  description : Option String
deriving DecidableEq, Repr

/-- The `reminders` collection: document id to document data. -/
abbrev Store := List (String × SharedReminder)

def getDoc (store : Store) (id : String) : Option SharedReminder :=
  (store.find? (·.1 = id)).map (·.2)

def setDoc (store : Store) (id : String) (r : SharedReminder) : Store :=
  store.map fun p => if p.1 = id then (p.1, r) else p

/-- The order of the `orderBy('scheduledAt', 'asc')` clause. -/
def schedLE (a b : String × SharedReminder) : Prop :=
  a.2.scheduledAt ≤ b.2.scheduledAt

instance : DecidableRel schedLE := fun a b => Int.decLe a.2.scheduledAt b.2.scheduledAt

instance : IsTotal (String × SharedReminder) schedLE :=
  ⟨fun a b => Int.le_total a.2.scheduledAt b.2.scheduledAt⟩

instance : IsTrans (String × SharedReminder) schedLE :=
  ⟨fun _ _ _ hab hbc => le_trans hab hbc⟩

/-- The due query of the cron job: documents with `status == 'pending'` and
`scheduledAt <= now`, ordered by `scheduledAt` ascending, limited to 100. -/
def dueQuery (now : Int) (store : Store) : Store :=
  ((store.filter fun p =>
      p.2.status = Status.pending ∧ p.2.scheduledAt ≤ now).insertionSort schedLE).take 100

/-- The claim transaction (`db.runTransaction`): re-read the document; a
missing or non-`pending` document yields `null`; otherwise the document's
status is set to `sending` atomically and the pre-claim data is returned. -/
def claimTx (store : Store) (id : String) (ts : Int) : Store × Option SharedReminder :=
  match getDoc store id with
  | none => (store, none)
  | some data =>
    if data.status ≠ Status.pending then (store, none)
    else (setDoc store id { data with status := Status.sending, updatedAt := some ts },
          some data)

/-- The message text for a claimed record:
`claimed.telegramText || `Reminder: ${title}${time ? '\n'+time : ''}``. -/
def reminderText (r : SharedReminder) : String :=
  jsOrStr r.telegramText
    ("Reminder: " ++ r.title ++
      (match r.time with
       | some t => if t = "" then "" else "\n" ++ t
       | none => ""))

/-- The post-send update of the claimed document: `status = 'sent'` with
`notifiedAt` on success; otherwise `status = 'pending'` with
`lastError = payload?.description ?? 'Telegram send failed'`. -/
def recordOutcome (cur : SharedReminder) (sr : SendResult) (ts : Int) : SharedReminder :=
  if sr.ok then
    { cur with status := Status.sent, notifiedAt := some ts, updatedAt := some ts }
  else
    { cur with status := Status.pending,
               lastError := some (jsCoalesce sr.description "Telegram send failed"),
               updatedAt := some ts }

inductive CronEffect
  | query
  | claimRead (id : String)
  | claimWrite (id : String)
  | send (chatId : Int) (text : String)
  | outcomeWrite (id : String)
deriving DecidableEq, Repr

/-- Environment of one cron invocation: configuration and the provider's
response for each document's send. -/
structure CronEnv where
  cronSecret : Option String
  token : Option String
  send : String → SendResult

/-- The per-candidate loop of the cron job, threading the evolving store:
claim in a transaction, skip on a lost claim, otherwise send and record the
outcome with a plain update of the (now `sending`) document. Returns the
final store, the effect trace and `results.length`. -/
def processDocs (env : CronEnv) (ts : Int) : List String → Store → Store × List CronEffect × Nat
  | [], store => (store, [], 0)
  | id :: rest, store =>
    let (store1, claimed) := claimTx store id ts
    match claimed with
    | none =>
      let (store2, effs, n) := processDocs env ts rest store1
      (store2, CronEffect.claimRead id :: effs, n)
    | some data =>
      let text := reminderText data
      let sr := env.send id
      let cur := (getDoc store1 id).getD data
      let store2 := setDoc store1 id (recordOutcome cur sr ts)
      let (store3, effs, n) := processDocs env ts rest store2
      (store3,
       CronEffect.claimRead id :: CronEffect.claimWrite id ::
         CronEffect.send data.chatId text :: CronEffect.outcomeWrite id :: effs,
       n + 1)

structure CronReq where
  method : String
  authorization : Option String
  querySecret : Option String
deriving DecidableEq, Repr

structure CronResp where
  status : Nat
  ok : Bool
  processed : Option Nat
deriving DecidableEq, Repr

/-- `header.startsWith('Bearer ') ? header.slice(7) : ''` with the header
defaulting to the empty string. -/
def bearerOf (auth : Option String) : String :=
  let header := auth.getD ""
  if ("Bearer ".toList).isPrefixOf header.toList then
    String.mk (header.toList.drop 7)
  else ""

/-- The secret check: with a truthy (nonempty) configured secret, the
request is rejected when neither the extracted bearer token nor the string
`secret` query parameter equals it. -/
def authRejected (secret : Option String) (req : CronReq) : Bool :=
  match secret with
  | none => false
  | some s => s ≠ "" && bearerOf req.authorization ≠ s && req.querySecret.getD "" ≠ s

/-- The cron handler of `api/telegram/cron.js`: 405 for methods other than
GET/POST, 401 on a failed secret check, 500 for a missing (falsy) bot
token; then the due query, the empty-snapshot short-circuit, and the
per-candidate loop. -/
def cronHandler (env : CronEnv) (req : CronReq) (now ts : Int) (store : Store) :
    CronResp × Store × List CronEffect :=
  if req.method ≠ "GET" ∧ req.method ≠ "POST" then (⟨405, false, none⟩, store, [])
  else if authRejected env.cronSecret req then (⟨401, false, none⟩, store, [])
  else if env.token.getD "" = "" then (⟨500, false, none⟩, store, [])
  else
    let selected := dueQuery now store
    if selected.isEmpty then (⟨200, true, some 0⟩, store, [CronEffect.query])
    else
      let (store1, effs, n) := processDocs env ts (selected.map (·.1)) store
      (⟨200, true, some n⟩, store1, CronEffect.query :: effs)

/-! ## Two concurrent cron invocations on one record

The claim transaction is the store's atomic unit; a concurrent execution of
two invocations A and B over the same candidate record is an interleaving
of each invocation's two atomic phases: its claim transaction and its
outcome update (the send sits between them but touches no shared state).
The local state records what the claim transaction observed and whether the
invocation currently holds the claim. -/

inductive CAct | claim | finish
deriving DecidableEq, Repr

inductive CInv | A | B
deriving DecidableEq, Repr

structure CLocal where
  claimed : Option Bool
  observed : Option Status
  finished : Bool
deriving DecidableEq, Repr

structure CConf where
  status : Status
  locA : CLocal
  locB : CLocal
deriving DecidableEq, Repr

/-- One invocation's atomic phase against the shared status. `claim` is the
transaction body: observe the status, claim exactly when it is `pending`.
`finish` is the post-send update: a claim holder writes `sent` or `pending`
according to its send result; a non-claimant does nothing (`continue`). -/
def stepInv (ok : Bool) (l : CLocal) (s : Status) : CAct → CLocal × Status
  | CAct.claim =>
    if s = Status.pending then
      ({ l with claimed := some true, observed := some s }, Status.sending)
    else
      ({ l with claimed := some false, observed := some s }, s)
  | CAct.finish =>
    match l.claimed with
    | some true => ({ l with finished := true }, if ok then Status.sent else Status.pending)
    | _ => ({ l with finished := true }, s)

def stepConf (okA okB : Bool) (c : CConf) : CInv × CAct → CConf
  | (CInv.A, act) =>
    let (l, s) := stepInv okA c.locA c.status act
    { c with locA := l, status := s }
  | (CInv.B, act) =>
    let (l, s) := stepInv okB c.locB c.status act
    { c with locB := l, status := s }

/-- An invocation holds the claim from a successful claim transaction until
its outcome update. -/
def holding (l : CLocal) : Bool := l.claimed = some true && !l.finished

/-- At most one invocation may hold the claim. -/
def mutexOk (c : CConf) : Bool := !(holding c.locA && holding c.locB)

/-- Run a trace, checking the mutual-exclusion invariant at every
configuration passed through. -/
def runChecked (okA okB : Bool) : CConf → List (CInv × CAct) → CConf × Bool
  | c, [] => (c, mutexOk c)
  | c, x :: xs =>
    let c1 := stepConf okA okB c x
    let (cf, m) := runChecked okA okB c1 xs
    (cf, mutexOk c && m)

/-- Run a trace to its final configuration. -/
def runTrace (okA okB : Bool) (c : CConf) (tr : List (CInv × CAct)) : CConf :=
  (runChecked okA okB c tr).1

/-- Worker for `interleavings`; the fuel bounds the total remaining length
and makes the two-list recursion structural. -/
def interleavingsFuel : Nat → List α → List α → List (List α)
  | 0, xs, ys => [xs ++ ys]
  | _ + 1, [], ys => [ys]
  | _ + 1, x :: xs, [] => [x :: xs]
  | n + 1, x :: xs, y :: ys =>
    (interleavingsFuel n xs (y :: ys)).map (x :: ·) ++
      (interleavingsFuel n (x :: xs) ys).map (y :: ·)

/-- All order-preserving merges of two instruction sequences: the possible
schedules of two concurrent invocations. -/
def interleavings (xs ys : List α) : List (List α) :=
  interleavingsFuel (xs.length + ys.length) xs ys

/-- Invocation A's program: claim, then deliver and record the outcome. -/
def progA : List (CInv × CAct) := [(CInv.A, CAct.claim), (CInv.A, CAct.finish)]

/-- Invocation B's program. -/
def progB : List (CInv × CAct) := [(CInv.B, CAct.claim), (CInv.B, CAct.finish)]

/-- Both invocations poised on a due, `pending` record. -/
def initConf : CConf :=
  ⟨Status.pending, ⟨none, none, false⟩, ⟨none, none, false⟩⟩

/-! ## Lemmas about the client scheduler -/

/-- `tickStep` in terms of due-ness. -/
theorem tickStep_eq (chatId : Int) (now : DateT) (r : Reminder) :
    tickStep chatId now r =
      if dueB now r then ({ r with notified := true }, true, [⟨chatId, r.id⟩])
      else (r, false, []) := by
  unfold tickStep dueB
  cases hd : r.done <;> cases hn : r.notified <;>
    by_cases hs : toTicks (schedInstant r) ≤ toTicks now <;>
    simp [hd, hn, hs]

/-- The updated reminder of `tickStep`. -/
theorem tickStep_fst (chatId : Int) (now : DateT) (r : Reminder) :
    (tickStep chatId now r).1 =
      if dueB now r then { r with notified := true } else r := by
  rw [tickStep_eq]; split <;> rfl

/-- The changed flag of `tickStep` is due-ness. -/
theorem tickStep_flag (chatId : Int) (now : DateT) (r : Reminder) :
    (tickStep chatId now r).2.1 = dueB now r := by
  rw [tickStep_eq]; split <;> simp_all

/-- The sends of `tickStep`. -/
theorem tickStep_sends (chatId : Int) (now : DateT) (r : Reminder) :
    (tickStep chatId now r).2.2 =
      if dueB now r then [SendAttempt.mk chatId r.id] else [] := by
  rw [tickStep_eq]; split <;> simp_all

/-- `any` over a mapped list (with heterogeneous types). -/
theorem list_any_map (l : List α) (f : α → β) (p : β → Bool) :
    (l.map f).any p = l.any (p ∘ f) := by
  induction l <;> simp_all

/-- The reminder list a tick returns: each due reminder with `notified`
set, every other reminder untouched. -/
theorem tick_fst (chatId : Int) (now : DateT) (prev : List Reminder) :
    (tick chatId now prev).1 =
      prev.map fun r => if dueB now r then { r with notified := true } else r := by
  simp only [tick]
  split
  case isTrue hc =>
    rw [List.map_map]
    exact List.map_congr_left fun r _ => tickStep_fst chatId now r
  case isFalse hc =>
    rw [list_any_map, Bool.not_eq_true, List.any_eq_false] at hc
    simp only [Function.comp_apply] at hc
    refine Eq.symm ?_
    have h1 : prev.map ((·.1) ∘ tickStep chatId now) = prev :=
      (List.map_congr_left fun r hr => by
        rw [Function.comp_apply, tickStep_fst]
        have hd : dueB now r = false := by
          have := hc r hr
          rw [tickStep_flag] at this
          exact Bool.not_eq_true _ |>.mp this
        rw [hd]
        simp).trans (List.map_id prev)
    calc prev.map (fun r => if dueB now r then { r with notified := true } else r)
        = prev.map ((·.1) ∘ tickStep chatId now) :=
          (List.map_congr_left fun r _ => (tickStep_fst chatId now r).symm)
      _ = prev := h1

/-- The sends a tick issues: one per due reminder, in order. -/
theorem tick_snd (chatId : Int) (now : DateT) (prev : List Reminder) :
    (tick chatId now prev).2 =
      (prev.filter (dueB now)).map fun r => SendAttempt.mk chatId r.id := by
  unfold tick
  simp only [List.map_map]
  induction prev with
  | nil => rfl
  | cons r rest ih =>
    simp only [List.map_cons, List.flatten_cons, List.filter_cons]
    rw [Function.comp_apply, tickStep_sends]
    cases hd : dueB now r <;> simp [hd, ih]

/-- A tick with no due reminder returns the previous array itself and
issues no sends. -/
theorem tick_noop (chatId : Int) (now : DateT) (prev : List Reminder)
    (h : ∀ r ∈ prev, dueB now r = false) :
    tick chatId now prev = (prev, []) := by
  have h1 : (tick chatId now prev).1 = prev := by
    rw [tick_fst]
    exact (List.map_congr_left fun r hr => by rw [h r hr]; simp).trans (List.map_id prev)
  have h2 : (tick chatId now prev).2 = [] := by
    rw [tick_snd, List.filter_eq_nil_iff.mpr fun r hr => by rw [h r hr]; exact Bool.false_ne_true]
    rfl
  exact Prod.ext h1 h2

/-- C3: a scheduler tick sends exactly one notification to the session's
chat for each due reminder (`done=false`, `notified=false`, scheduled
instant at or before now) and sets its `notified` flag; reminders that are
not due are unchanged, and a tick with no due reminder changes no state and
makes no network call. -/
theorem scheduler_tick_due_exactly_once (chatId : Int) (now : DateT)
    (prev : List Reminder) :
    ((tick chatId now prev).1 =
        prev.map fun r => if dueB now r then { r with notified := true } else r) ∧
    ((tick chatId now prev).2 =
        (prev.filter (dueB now)).map fun r => SendAttempt.mk chatId r.id) ∧
    ((∀ r ∈ prev, dueB now r = false) → tick chatId now prev = (prev, [])) :=
  ⟨tick_fst chatId now prev, tick_snd chatId now prev, tick_noop chatId now prev⟩

/-- Witness for C3 on a concrete state: one due and one future reminder. -/
theorem scheduler_tick_due_exactly_once_witness :
    (tick 7 ⟨0, 12, 0, 0⟩
        [⟨"r1", "a", ⟨0, 3, 0, 0⟩, "09:30", none, false, false⟩,
         ⟨"r2", "b", ⟨0, 3, 0, 0⟩, "23:30", none, false, false⟩]).1 =
      [⟨"r1", "a", ⟨0, 3, 0, 0⟩, "09:30", none, false, true⟩,
       ⟨"r2", "b", ⟨0, 3, 0, 0⟩, "23:30", none, false, false⟩] ∧
    (tick 7 ⟨0, 12, 0, 0⟩
        [⟨"r1", "a", ⟨0, 3, 0, 0⟩, "09:30", none, false, false⟩,
         ⟨"r2", "b", ⟨0, 3, 0, 0⟩, "23:30", none, false, false⟩]).2 = [⟨7, "r1"⟩] ∧
    tick 7 ⟨0, 12, 0, 0⟩ [⟨"r3", "c", ⟨0, 3, 0, 0⟩, "23:30", none, false, false⟩] =
      ([⟨"r3", "c", ⟨0, 3, 0, 0⟩, "23:30", none, false, false⟩], []) := by
  have h1 := scheduler_tick_due_exactly_once 7 ⟨0, 12, 0, 0⟩
    [⟨"r1", "a", ⟨0, 3, 0, 0⟩, "09:30", none, false, false⟩,
     ⟨"r2", "b", ⟨0, 3, 0, 0⟩, "23:30", none, false, false⟩]
  have h2 := scheduler_tick_due_exactly_once 7 ⟨0, 12, 0, 0⟩
    [⟨"r3", "c", ⟨0, 3, 0, 0⟩, "23:30", none, false, false⟩]
  refine ⟨h1.1.trans (by decide), (h1.2.1).trans (by decide), h2.2.2 (by decide)⟩

/-- C4 counterexample: the tick that attempts the send sets
`notified := true` unconditionally — the update does not depend on the
outcome of the fire-and-forget `notifyTelegramReminder` call — so after a
tick on a due reminder the flag is `true`, not `false`, and the claim that
a failed send leaves `notified = false` for a retry is refuted. -/
theorem scheduler_failed_send_sets_notified_cex :
    (tick 7 ⟨0, 12, 0, 0⟩ [⟨"r1", "a", ⟨0, 3, 0, 0⟩, "09:30", none, false, false⟩]).2 =
      [⟨7, "r1"⟩] ∧
    (tick 7 ⟨0, 12, 0, 0⟩
        [⟨"r1", "a", ⟨0, 3, 0, 0⟩, "09:30", none, false, false⟩]).1.map Reminder.notified =
      [true] ∧
    ¬ ((tick 7 ⟨0, 12, 0, 0⟩
        [⟨"r1", "a", ⟨0, 3, 0, 0⟩, "09:30", none, false, false⟩]).1.map Reminder.notified =
      [false]) := by decide

/-- C4 (amended): a network failure of the send is caught and logged inside
`notifyTelegramReminder`, but `notified` is set at dispatch time regardless
of the outcome, so the reminder is not retried: a second tick at the same
instant changes nothing and sends nothing. -/
theorem scheduler_failure_logged_not_retried (chatId : Int) (now : DateT)
    (prev : List Reminder) (netOk : Bool) :
    (netOk = false → notifyWarnLog netOk = ["Failed to send Telegram reminder"]) ∧
    tick chatId now ((tick chatId now prev).1) = ((tick chatId now prev).1, []) := by
  constructor
  · intro h; rw [h]; rfl
  · refine tick_noop chatId now _ ?_
    intro r hr
    rw [tick_fst] at hr
    rcases List.mem_map.mp hr with ⟨r0, _, hmap⟩
    by_cases hd : dueB now r0
    · rw [if_pos hd] at hmap
      subst hmap
      simp [dueB]
    · rw [if_neg hd] at hmap
      subst hmap
      exact Bool.not_eq_true _ |>.mp hd

/-- Witness for C4 (amended) at a concrete due reminder and a failing
network. -/
theorem scheduler_failure_logged_not_retried_witness :
    ((false : Bool) = false → notifyWarnLog false = ["Failed to send Telegram reminder"]) ∧
    tick 7 ⟨0, 12, 0, 0⟩
        ((tick 7 ⟨0, 12, 0, 0⟩ [⟨"r1", "a", ⟨0, 3, 0, 0⟩, "09:30", none, false, false⟩]).1) =
      ((tick 7 ⟨0, 12, 0, 0⟩ [⟨"r1", "a", ⟨0, 3, 0, 0⟩, "09:30", none, false, false⟩]).1, []) :=
  scheduler_failure_logged_not_retried 7 ⟨0, 12, 0, 0⟩
    [⟨"r1", "a", ⟨0, 3, 0, 0⟩, "09:30", none, false, false⟩] false

/-- C5: toggling `done` false→true leaves `notified` unchanged, toggling
true→false resets `notified` to false, and reminders with a different id
are untouched. -/
theorem toggleReminder_spec (id : String) (prev : List Reminder) (i : Nat)
    (r : Reminder) (h : prev[i]? = some r) :
    ∃ r', (toggleReminder id prev)[i]? = some r' ∧
      (r.id ≠ id → r' = r) ∧
      (r.id = id → r.done = false → r' = { r with done := true }) ∧
      (r.id = id → r.done = true → r' = { r with done := false, notified := false }) := by
  refine ⟨if r.id = id then
      { r with done := !r.done, notified := if r.done then false else r.notified }
    else r, ?_, ?_, ?_, ?_⟩
  · simp [toggleReminder, List.getElem?_map, h]
  · intro hne
    rw [if_neg hne]
  · intro he hd
    rw [if_pos he, hd]
    simp
  · intro he hd
    rw [if_pos he, hd]
    simp

/-- Witness for C5: a list with a matching done, a matching not-done, and a
non-matching reminder. -/
theorem toggleReminder_spec_witness :
    ∃ r', (toggleReminder "x" [⟨"x", "a", ⟨0, 0, 0, 0⟩, "09:30", none, true, true⟩])[0]? =
        some r' ∧
      (("x" : String) ≠ "x" → r' = ⟨"x", "a", ⟨0, 0, 0, 0⟩, "09:30", none, true, true⟩) ∧
      (("x" : String) = "x" → (true : Bool) = false →
        r' = ⟨"x", "a", ⟨0, 0, 0, 0⟩, "09:30", none, true, true⟩) ∧
      (("x" : String) = "x" → (true : Bool) = true →
        r' = ⟨"x", "a", ⟨0, 0, 0, 0⟩, "09:30", none, false, false⟩) := by
  have h := toggleReminder_spec "x" [⟨"x", "a", ⟨0, 0, 0, 0⟩, "09:30", none, true, true⟩] 0
    ⟨"x", "a", ⟨0, 0, 0, 0⟩, "09:30", none, true, true⟩ (by decide)
  rcases h with ⟨r', h1, h2, h3, h4⟩
  exact ⟨r', h1, h2, fun he hd => h3 he hd, fun he hd => by rw [h4 he hd]⟩

/-! ## Webhook claim theorems -/

/-- C6: evaluation of `parseTransaction` on the four specified inputs. The
first and last agree with the claim (and with the parser's own doc comment);
on `"+500 gift"` the code produces description `"+ gift"` (removing only the
digits leaves the `+` in place), and on `"зарплата 1000"` it produces type
`expense` (the keyword list is only `доход`/`income`), contradicting both
the claim and the doc comment above `parseTransaction`. -/
theorem parseTransaction_examples :
    parseTransaction "150 coffee" = some ⟨150, "coffee", TxType.expense⟩ ∧
    parseTransaction "+500 gift" = some ⟨500, "+ gift", TxType.income⟩ ∧
    parseTransaction "+500 gift" ≠ some ⟨500, "gift", TxType.income⟩ ∧
    parseTransaction "зарплата 1000" = some ⟨1000, "зарплата", TxType.expense⟩ ∧
    parseTransaction "зарплата 1000" ≠ some ⟨1000, "зарплата", TxType.income⟩ ∧
    parseTransaction "hello" = none := by decide

/-- C7: any POST request whose body has a truthy `message.chat` and
`message.text` is answered `200 {ok: true}`, whatever the outcomes of the
user lookup, the transaction write and the replies — a rejection anywhere
lands in the handler's catch, which answers `200 {ok: true}` as well. -/
theorem webhook_always_200 (env : WebhookEnv) (body : WBody) (msg : WMsg)
    (chat : WChat) (t : String) (hm : body.message = some msg)
    (hc : msg.chat = some chat) (ht : msg.text = some t) (hne : t ≠ "") :
    (webhookHandler env "POST" body).1 = ⟨200, true⟩ := by
  have hft : falsyText msg.text = false := by
    rw [ht]
    simpa [falsyText] using hne
  rcases env with ⟨ul, pers, snd⟩
  simp only [webhookHandler, hm, hc, hft]
  rw [if_neg (fun h => h rfl)]
  rcases ul with e | u
  · rfl
  · rcases u with _ | uid
    · rfl
    · rcases hp : parseTransaction (msg.text.getD "") with _ | p <;> simp only [hp]
      · split <;> rfl
      · rcases pers with e | _ <;> rfl

/-- Witness for C7: a well-formed body with every internal call failing. -/
theorem webhook_always_200_witness :
    (webhookHandler ⟨Except.error "db down", Except.error "db down", Except.error "dns"⟩
        "POST" ⟨some ⟨some ⟨99⟩, some "150 coffee"⟩⟩).1 = ⟨200, true⟩ :=
  webhook_always_200 ⟨Except.error "db down", Except.error "db down", Except.error "dns"⟩
    ⟨some ⟨some ⟨99⟩, some "150 coffee"⟩⟩ ⟨some ⟨99⟩, some "150 coffee"⟩ ⟨99⟩ "150 coffee"
    rfl rfl rfl (by decide)

/-- C10: a POST whose body lacks `message`, `message.text` or
`message.chat` is answered `200 {ok: true}` immediately, with no user
lookup, no store write and no outbound send. -/
theorem webhook_malformed_noop (env : WebhookEnv) (body : WBody)
    (h : body.message = none ∨
      ∃ msg, body.message = some msg ∧ (msg.text = none ∨ msg.chat = none)) :
    webhookHandler env "POST" body = (⟨200, true⟩, []) := by
  rcases h with hm | ⟨msg, hm, hmt | hmc⟩
  · simp [webhookHandler, hm]
  · rcases hc : msg.chat with _ | c
    · simp [webhookHandler, hm, hc]
    · simp [webhookHandler, hm, hc, hmt, falsyText]
  · simp [webhookHandler, hm, hmc]

/-- Witness for C10 at a body with a message that has no chat. -/
theorem webhook_malformed_noop_witness :
    webhookHandler ⟨Except.ok (some "uid"), Except.ok (), Except.ok ()⟩ "POST"
        ⟨some ⟨none, some "150 coffee"⟩⟩ = (⟨200, true⟩, []) :=
  webhook_malformed_noop ⟨Except.ok (some "uid"), Except.ok (), Except.ok ()⟩
    ⟨some ⟨none, some "150 coffee"⟩⟩
    (Or.inr ⟨⟨none, some "150 coffee"⟩, rfl, Or.inr rfl⟩)

/-! ## Cron claim theorems -/

/-- Overwriting an existing document is visible to a subsequent read. -/
theorem getDoc_setDoc {store : Store} {id : String} {d r : SharedReminder}
    (h : getDoc store id = some d) : getDoc (setDoc store id r) id = some r := by
  induction store with
  | nil => simp [getDoc] at h
  | cons p rest ih =>
    by_cases hp : p.1 = id
    · simp [getDoc, setDoc, List.find?_cons, hp]
    · have h' : getDoc rest id = some d := by
        simpa [getDoc, List.find?_cons, decide_eq_false hp] using h
      simpa [getDoc, setDoc, List.find?_cons, decide_eq_false hp, if_neg hp] using ih h'

/-- C8: with a configured (nonempty) cron secret and a GET/POST request
matching neither by bearer header nor by `secret` query parameter, the
handler answers 401 and touches nothing: the store is unchanged and the
effect trace is empty (no reads, no writes, no sends). -/
theorem cron_unauthorized_noop (env : CronEnv) (req : CronReq) (now ts : Int)
    (store : Store) (s : String) (hm : req.method = "GET" ∨ req.method = "POST")
    (hs : env.cronSecret = some s) (hne : s ≠ "")
    (hb : bearerOf req.authorization ≠ s) (hq : req.querySecret.getD "" ≠ s) :
    cronHandler env req now ts store = (⟨401, false, none⟩, store, []) := by
  have hrej : authRejected env.cronSecret req = true := by
    rw [hs]
    simp [authRejected, hne, hb, hq]
  have hmethod : ¬(req.method ≠ "GET" ∧ req.method ≠ "POST") := by
    rcases hm with h | h <;> rw [h] <;> simp
  rw [cronHandler, if_neg hmethod, if_pos hrej]

/-- Witness for C8: one due pending record, wrong bearer and wrong query
secret. -/
theorem cron_unauthorized_noop_witness :
    cronHandler ⟨some "s3cret", some "tok", fun _ => ⟨true, none⟩⟩
        ⟨"POST", some "Bearer nope", some "wrong"⟩ 10 11
        [("d1", ⟨7, 5, Status.pending, "t", none, none, none, none, none⟩)] =
      (⟨401, false, none⟩, [("d1", ⟨7, 5, Status.pending, "t", none, none, none, none, none⟩)],
        []) :=
  cron_unauthorized_noop ⟨some "s3cret", some "tok", fun _ => ⟨true, none⟩⟩
    ⟨"POST", some "Bearer nope", some "wrong"⟩ 10 11
    [("d1", ⟨7, 5, Status.pending, "t", none, none, none, none, none⟩)] "s3cret"
    (Or.inr rfl) rfl (by decide) (by decide) (by decide)

/-- C9: the due query selects only `pending` records with
`scheduledAt ≤ now`, in ascending `scheduledAt` order, at most 100 of them;
and when the selection is empty an authorized invocation answers
`200 {ok: true, processed: 0}` having only read the store. -/
theorem cron_due_query_spec (env : CronEnv) (req : CronReq) (now ts : Int)
    (store : Store) (hm : req.method = "GET" ∨ req.method = "POST")
    (ha : authRejected env.cronSecret req = false) (ht : env.token.getD "" ≠ "") :
    (∀ p ∈ dueQuery now store, p.2.status = Status.pending ∧ p.2.scheduledAt ≤ now) ∧
    List.Sorted schedLE (dueQuery now store) ∧
    (dueQuery now store).length ≤ 100 ∧
    (dueQuery now store = [] →
      cronHandler env req now ts store = (⟨200, true, some 0⟩, store, [CronEffect.query])) := by
  refine ⟨?_, ?_, ?_, ?_⟩
  · intro p hp
    have h1 : p ∈ (store.filter fun q =>
        q.2.status = Status.pending ∧ q.2.scheduledAt ≤ now).insertionSort schedLE :=
      List.take_subset 100 _ hp
    have h2 := (List.mem_insertionSort schedLE).mp h1
    have h3 := (List.mem_filter.mp h2).2
    simpa using h3
  · exact (List.sorted_insertionSort schedLE _).sublist (List.take_sublist 100 _)
  · simp [dueQuery]
  · intro hempty
    have hmethod : ¬(req.method ≠ "GET" ∧ req.method ≠ "POST") := by
      rcases hm with h | h <;> rw [h] <;> simp
    rw [cronHandler, if_neg hmethod,
      if_neg (fun h => Bool.false_ne_true (ha ▸ h)), if_neg ht]
    simp [hempty]

/-- A future-scheduled pending record: the due query at `now = 10` is
empty. -/
def quietStore : Store := [("d1", ⟨7, 99, Status.pending, "t", none, none, none, none, none⟩)]

/-- Witness for C9 on `quietStore` with an authorized GET and no secret
configured. -/
theorem cron_due_query_spec_witness :
    (∀ p ∈ dueQuery 10 quietStore, p.2.status = Status.pending ∧ p.2.scheduledAt ≤ 10) ∧
    List.Sorted schedLE (dueQuery 10 quietStore) ∧
    (dueQuery 10 quietStore).length ≤ 100 ∧
    (dueQuery 10 quietStore = [] →
      cronHandler ⟨none, some "tok", fun _ => ⟨true, none⟩⟩ ⟨"GET", none, none⟩ 10 11
          quietStore =
        (⟨200, true, some 0⟩, quietStore, [CronEffect.query])) :=
  cron_due_query_spec ⟨none, some "tok", fun _ => ⟨true, none⟩⟩ ⟨"GET", none, none⟩ 10 11
    quietStore (Or.inl rfl) (by decide) (by decide)

/-- C2 (amended): a record claimed by an invocation is never left in
`sending`: on send success it ends `sent` with `notifiedAt` recorded, on
send failure it ends `pending` with `lastError` set to the provider's
`description` when the provider supplied one and to the fixed fallback
`'Telegram send failed'` otherwise (so `lastError` can be empty exactly
when the provider reported an empty description); and an invocation never
touches a record whose status is already `sent`. -/
theorem cron_claimed_outcome (env : CronEnv) (ts : Int) (id : String)
    (store : Store) (r : SharedReminder) (hr : getDoc store id = some r) :
    (r.status = Status.pending →
      ∃ r', getDoc (processDocs env ts [id] store).1 id = some r' ∧
        r'.status ≠ Status.sending ∧
        ((env.send id).ok = true → r'.status = Status.sent ∧ r'.notifiedAt = some ts) ∧
        ((env.send id).ok = false → r'.status = Status.pending ∧
          r'.lastError = some (jsCoalesce (env.send id).description "Telegram send failed"))) ∧
    (r.status = Status.sent → (processDocs env ts [id] store).1 = store) := by
  constructor
  · intro hp
    have hnp : ¬(r.status ≠ Status.pending) := fun h => h hp
    have hclaim : claimTx store id ts =
        (setDoc store id { r with status := Status.sending, updatedAt := some ts }, some r) := by
      simp only [claimTx, hr, if_neg hnp]
    have hget1 : getDoc (setDoc store id
        { r with status := Status.sending, updatedAt := some ts }) id =
        some { r with status := Status.sending, updatedAt := some ts } := getDoc_setDoc hr
    refine ⟨recordOutcome { r with status := Status.sending, updatedAt := some ts }
      (env.send id) ts, ?_, ?_, ?_, ?_⟩
    · simp only [processDocs, hclaim, hget1, Option.getD_some]
      exact getDoc_setDoc hget1
    · unfold recordOutcome
      split <;> simp
    · intro hok
      unfold recordOutcome
      rw [if_pos hok]
      exact ⟨rfl, rfl⟩
    · intro hko
      unfold recordOutcome
      rw [if_neg (by rw [hko]; exact Bool.false_ne_true)]
      exact ⟨rfl, rfl⟩
  · intro hs
    have hnp : r.status ≠ Status.pending := by rw [hs]; exact fun h => Status.noConfusion h
    have hclaim : claimTx store id ts = (store, none) := by
      simp only [claimTx, hr, if_pos hnp]
    simp only [processDocs, hclaim]

/-- A due pending record under a successful send. -/
def happyStore : Store := [("d", ⟨77, 1, Status.pending, "t", none, none, none, none, none⟩)]

/-- Witness for C2 (amended): the pending record of `happyStore` processed
with a successful send. -/
theorem cron_claimed_outcome_witness :
    ((⟨77, 1, Status.pending, "t", none, none, none, none, none⟩ : SharedReminder).status =
        Status.pending →
      ∃ r', getDoc (processDocs ⟨none, some "tok", fun _ => ⟨true, none⟩⟩ 5 ["d"]
          happyStore).1 "d" = some r' ∧
        r'.status ≠ Status.sending ∧
        (((⟨none, some "tok", fun _ => ⟨true, none⟩⟩ : CronEnv).send "d").ok = true →
          r'.status = Status.sent ∧ r'.notifiedAt = some 5) ∧
        (((⟨none, some "tok", fun _ => ⟨true, none⟩⟩ : CronEnv).send "d").ok = false →
          r'.status = Status.pending ∧
          r'.lastError = some (jsCoalesce
            ((⟨none, some "tok", fun _ => ⟨true, none⟩⟩ : CronEnv).send "d").description
            "Telegram send failed"))) ∧
    ((⟨77, 1, Status.pending, "t", none, none, none, none, none⟩ : SharedReminder).status =
        Status.sent →
      (processDocs ⟨none, some "tok", fun _ => ⟨true, none⟩⟩ 5 ["d"] happyStore).1 =
        happyStore) :=
  cron_claimed_outcome ⟨none, some "tok", fun _ => ⟨true, none⟩⟩ 5 "d" happyStore
    ⟨77, 1, Status.pending, "t", none, none, none, none, none⟩ (by decide)

/-- An environment whose provider rejects the send with an empty
`description` string: `payload = {ok: false, description: ""}`. -/
def emptyDescEnv : CronEnv := ⟨none, some "tok", fun _ => ⟨false, some ""⟩⟩

/-- C2 counterexample: after a failed send whose provider payload carries
`description: ""`, the record's `lastError` is the empty string — the
`??` fallback only covers a missing description — refuting the claim that
`lastError` is always set to a non-empty description. -/
theorem cron_lastError_empty_cex :
    ((getDoc (processDocs emptyDescEnv 5 ["d"] happyStore).1 "d").bind
        SharedReminder.lastError) = some "" ∧
    ¬ (∀ e, ((getDoc (processDocs emptyDescEnv 5 ["d"] happyStore).1 "d").bind
        SharedReminder.lastError) = some e → e ≠ "") :=
  ⟨by decide, fun h => h "" (by decide) rfl⟩

/-- The sequential-overlap schedule: A claims and finishes before B's claim
transaction runs. -/
def seqTrace : List (CInv × CAct) :=
  [(CInv.A, CAct.claim), (CInv.A, CAct.finish), (CInv.B, CAct.claim), (CInv.B, CAct.finish)]

/-- C1 counterexample: with invocation A's send failing, the schedule
`seqTrace` — a legal interleaving of the two racing invocations — lets A
claim, fail its send and restore `pending`, after which B's claim
transaction also observes `pending` and transitions the record to
`sending`: both invocations observe `pending`, refuting "exactly one". -/
theorem cron_race_both_claim_cex :
    seqTrace ∈ interleavings progA progB ∧
    (runTrace false true initConf seqTrace).locA.observed = some Status.pending ∧
    (runTrace false true initConf seqTrace).locB.observed = some Status.pending ∧
    (runTrace false true initConf seqTrace).locA.claimed = some true ∧
    (runTrace false true initConf seqTrace).locB.claimed = some true ∧
    (runTrace false true initConf seqTrace).status = Status.sent := by decide

/-- C1 (amended): over every interleaving of two claim-and-deliver
invocations racing on a due `pending` record, at most one invocation holds
the claim at any moment, and when both complete normally the final status
is `sent` or `pending`, never `sending`; when neither send fails, exactly
one invocation observes `pending` in its claim transaction and transitions
the record to `sending` while the other observes a non-`pending` status and
skips. (A second `pending` observation is possible exactly when the first
claimant's send failed and returned the record to `pending` before the
second claim ran — the retry the failure path is designed for.) -/
theorem cron_race_mutex :
    ∀ okA okB : Bool, ∀ tr ∈ interleavings progA progB,
      (runChecked okA okB initConf tr).2 = true ∧
      (runTrace okA okB initConf tr).status ≠ Status.sending ∧
      (okA = true → okB = true →
        ((runTrace okA okB initConf tr).locA.claimed = some true ∧
          (runTrace okA okB initConf tr).locB.claimed = some false ∧
          (runTrace okA okB initConf tr).locB.observed ≠ some Status.pending) ∨
        ((runTrace okA okB initConf tr).locB.claimed = some true ∧
          (runTrace okA okB initConf tr).locA.claimed = some false ∧
          (runTrace okA okB initConf tr).locA.observed ≠ some Status.pending)) := by
  intro okA okB
  cases okA <;> cases okB <;> decide

/-- The fully interleaved schedule: both claim transactions run before
either outcome update. -/
def altTrace : List (CInv × CAct) :=
  [(CInv.A, CAct.claim), (CInv.B, CAct.claim), (CInv.A, CAct.finish), (CInv.B, CAct.finish)]

/-- Witness for C1 (amended) on `altTrace` with both sends succeeding. -/
theorem cron_race_mutex_witness :
    (runChecked true true initConf altTrace).2 = true ∧
    (runTrace true true initConf altTrace).status ≠ Status.sending ∧
    ((true : Bool) = true → (true : Bool) = true →
      ((runTrace true true initConf altTrace).locA.claimed = some true ∧
        (runTrace true true initConf altTrace).locB.claimed = some false ∧
        (runTrace true true initConf altTrace).locB.observed ≠ some Status.pending) ∨
      ((runTrace true true initConf altTrace).locB.claimed = some true ∧
        (runTrace true true initConf altTrace).locA.claimed = some false ∧
        (runTrace true true initConf altTrace).locA.observed ≠ some Status.pending)) :=
  cron_race_mutex true true altTrace (by decide)
